import Mathlib

/-
Verification of the shop-management backend (mern-version).

Shallow embedding conventions:
- JavaScript Number values holding money are modelled as `Rat`; dates are
  modelled as `Int` (epoch milliseconds); `new Date() > dueDate` becomes a
  strict comparison on `Int`.
- A Mongo collection is a `List` of records; `_id` is a `Nat` supplied with
  the input record (the database generates it; uniqueness is the caller's
  concern and is not assumed unless stated).
- `findOne {_id, createdBy}` becomes `List.find?` with the same predicate;
  `findByIdAndDelete` filters by id only, exactly as in the routes.
- Mongoose truthiness: `!this.totalAmount` is true for 0 and for an absent
  value, so an absent `totalAmount` is modelled as 0; `if (paymentStatus)`
  on a string is modelled as an `Option` (`some` = provided and truthy).
- `findOneAndUpdate` applies the given fields directly and runs no save
  middleware (mongoose runs no pre/post save hooks on that path), which is
  reflected verbatim in `updatePurchase` below.
- Schema fields that no modelled operation reads or writes (timestamps,
  invoiceNumber, customer address) are omitted; validators (min bounds,
  string formats) are input-validation concerns outside the derivation
  logic under study.
-/

namespace ShopMgmt

/-- Payment status enumeration of purchaseSchema (Purchase.js). -/
inductive PaymentStatus where
  | pending
  | completed
  | overdue
  | cancelled
deriving DecidableEq, Repr

/-- One line item of purchaseItemSchema (Purchase.js). -/
structure PurchaseItem where
  productName : String
  quantity : ℚ
  unitPrice : ℚ
  totalPrice : ℚ
deriving DecidableEq, Repr

/-- A document of purchaseSchema (Purchase.js). -/
structure Purchase where
  id : ℕ
  customer : ℕ
  items : List PurchaseItem
  totalAmount : ℚ
  paymentStatus : PaymentStatus
  paymentMethod : String
  purchaseDate : ℤ
  dueDate : Option ℤ
  paidAmount : ℚ
  remainingAmount : ℚ
  notes : String
  createdBy : ℕ
deriving DecidableEq, Repr

/-- A document of customerSchema (Customer.js). -/
structure Customer where
  id : ℕ
  name : String
  email : String
  phone : String
  totalPurchases : ℕ
  totalSpent : ℚ
  lastPurchaseDate : Option ℤ
  isActive : Bool
  notes : String
  createdBy : ℕ
deriving DecidableEq, Repr

/-- Error taxonomy surfaced by the routes: every guarded failure in the
purchase/customer routes raises statusCode 404 (not found); 403 (forbidden)
exists in the transport layer but is listed here to state that the routes
never produce it. -/
inductive AppError where
  | notFound
  | forbidden
  | validation
deriving DecidableEq, Repr

/-- Body of the items.forEach loop in the pre-save hook:
item.totalPrice = item.quantity * item.unitPrice. -/
def deriveItem (it : PurchaseItem) : PurchaseItem :=
  { it with totalPrice := it.quantity * it.unitPrice }

/-- calculatedTotal of the pre-save hook: the sum of the freshly assigned
item.totalPrice values, i.e. of quantity * unitPrice. -/
def itemsTotal (items : List PurchaseItem) : ℚ :=
  items.foldl (fun s it => s + it.quantity * it.unitPrice) 0

/-- The comparison new Date() > dueDate, with now passed explicitly; an
absent dueDate is falsy. -/
def pastDue (now : ℤ) : Option ℤ → Bool
  | none => false
  | some d => decide (d < now)

/-- The purchaseSchema pre-save hook (Purchase.js lines 82-107): recompute
item totals, fill totalAmount from the items when it is falsy, recompute
remainingAmount, and update paymentStatus from remainingAmount and dueDate.
The hook has no branch for the cancelled status and no branch assigning
pending: when remainingAmount > 0 and the record is not past due, the
stored status is left as it is. -/
def preSave (now : ℤ) (p : Purchase) : Purchase :=
  let items1 := p.items.map deriveItem
  let total1 :=
    if p.items = [] then p.totalAmount
    else if p.totalAmount = 0 then itemsTotal p.items
    else p.totalAmount
  let rem1 := total1 - p.paidAmount
  let st1 :=
    if rem1 ≤ 0 then PaymentStatus.completed
    else if pastDue now p.dueDate then PaymentStatus.overdue
    else p.paymentStatus
  { p with items := items1, totalAmount := total1,
           remainingAmount := rem1, paymentStatus := st1 }

/-- The purchaseSchema virtual isOverdue (Purchase.js lines 129-131). -/
def isOverdue (now : ℤ) (p : Purchase) : Bool :=
  pastDue now p.dueDate && decide (0 < p.remainingAmount)

/-- The $match {customer: this._id} stage of updatePurchaseStats: all
purchases referencing this customer, in every shop. -/
def customerPurchases (purchases : List Purchase) (cid : ℕ) : List Purchase :=
  purchases.filter (fun p => p.customer == cid)

/-- The $sum totalAmount accumulator of updatePurchaseStats. -/
def sumTotalAmount (ps : List Purchase) : ℚ :=
  ps.foldl (fun s p => s + p.totalAmount) 0

/-- The $max purchaseDate accumulator of updatePurchaseStats; none when the
group is empty. -/
def maxPurchaseDate (ps : List Purchase) : Option ℤ :=
  ps.foldl
    (fun acc p =>
      match acc with
      | none => some p.purchaseDate
      | some d => some (max d p.purchaseDate))
    none

/-- customerSchema.methods.updatePurchaseStats (Customer.js lines 83-104):
aggregate this customer's purchases; when the aggregation returns a row
(stats.length > 0) overwrite the three cached fields with the fold result,
otherwise leave the document unchanged; then save. -/
def updatePurchaseStats (purchases : List Purchase) (c : Customer) : Customer :=
  let ps := customerPurchases purchases c.id
  if ps = [] then c
  else
    { c with totalPurchases := ps.length,
             totalSpent := sumTotalAmount ps,
             lastPurchaseDate := maxPurchaseDate ps }

/-- The spec's invariant for one customer: the three cached aggregates equal
the fold over that customer's live purchase set. -/
def statsMatchFold (purchases : List Purchase) (c : Customer) : Prop :=
  c.totalPurchases = (customerPurchases purchases c.id).length ∧
  c.totalSpent = sumTotalAmount (customerPurchases purchases c.id) ∧
  c.lastPurchaseDate = maxPurchaseDate (customerPurchases purchases c.id)

instance (purchases : List Purchase) (c : Customer) :
    Decidable (statsMatchFold purchases c) := by
  unfold statsMatchFold; infer_instance

/-- The two collections the routes operate on. -/
structure Store where
  purchases : List Purchase
  customers : List Customer
deriving DecidableEq, Repr

/-- Post-save reconciliation as invoked by purchaseSchema.post('save') and by
deletePurchase: Customer.findById(cid) (id only, not shop scoped) followed by
customer.updatePurchaseStats(); a missing customer is ignored. Replacing
every id match is equivalent to the code's find-then-save when ids are
unique, and a map over a list with no match is the identity, matching the
if (customer) guard. -/
def reconcile (purchases : List Purchase) (customers : List Customer)
    (cid : ℕ) : List Customer :=
  customers.map (fun d => if d.id == cid then updatePurchaseStats purchases d else d)

/-- createPurchase (purchaseRoutes.js lines 106-141): check the customer
exists in the caller's shop (else 404), then Purchase.create with createdBy
forced to the caller, which runs the pre-save hook and then the post-save
statistics update. -/
def createPurchase (uid : ℕ) (now : ℤ) (input : Purchase) (s : Store) :
    Except AppError Store :=
  match s.customers.find? (fun c => c.id == input.customer && c.createdBy == uid) with
  | none => .error .notFound
  | some _ =>
    let p := preSave now { input with createdBy := uid }
    let purchases := s.purchases ++ [p]
    .ok { purchases := purchases,
          customers := reconcile purchases s.customers p.customer }

/-- The updatable fields of a purchase update request body (those of the
schema that the modelled state reads); a some field is $set. -/
structure PurchaseUpdate where
  customer : Option ℕ
  items : Option (List PurchaseItem)
  totalAmount : Option ℚ
  paidAmount : Option ℚ
  paymentStatus : Option PaymentStatus
  paymentMethod : Option String
  dueDate : Option (Option ℤ)
  notes : Option String
deriving DecidableEq, Repr

/-- Field application of findOneAndUpdate: provided fields replace stored
ones, nothing else runs. -/
def applyUpdate (p : Purchase) (u : PurchaseUpdate) : Purchase :=
  { p with customer := u.customer.getD p.customer,
           items := u.items.getD p.items,
           totalAmount := u.totalAmount.getD p.totalAmount,
           paidAmount := u.paidAmount.getD p.paidAmount,
           paymentStatus := u.paymentStatus.getD p.paymentStatus,
           paymentMethod := u.paymentMethod.getD p.paymentMethod,
           dueDate := u.dueDate.getD p.dueDate,
           notes := u.notes.getD p.notes }

/-- updatePurchase (purchaseRoutes.js lines 146-177): findOneAndUpdate
scoped by {_id, createdBy}; 404 when no match; the update runs no save
middleware, so neither the pre-save derivation nor the post-save customer
statistics update executes on this path. -/
def updatePurchase (uid : ℕ) (pid : ℕ) (u : PurchaseUpdate) (s : Store) :
    Except AppError (Store × Purchase) :=
  match s.purchases.find? (fun p => p.id == pid && p.createdBy == uid) with
  | none => .error .notFound
  | some p =>
    let p2 := applyUpdate p u
    .ok ({ s with purchases :=
             s.purchases.map (fun q => if q.id == pid then applyUpdate q u else q) },
         p2)

/-- deletePurchase (purchaseRoutes.js lines 182-214): findOne scoped by
{_id, createdBy} (else 404), findByIdAndDelete by id, then the explicit
customer statistics update for the deleted purchase's customer. -/
def deletePurchase (uid : ℕ) (pid : ℕ) (s : Store) : Except AppError Store :=
  match s.purchases.find? (fun p => p.id == pid && p.createdBy == uid) with
  | none => .error .notFound
  | some p =>
    let purchases := s.purchases.filter (fun q => q.id != pid)
    .ok { purchases := purchases,
          customers := reconcile purchases s.customers p.customer }

/-- The body-field application of updatePaymentStatus: paidAmount when not
undefined, paymentStatus and paymentMethod when truthy. -/
def applyPaymentFields (p : Purchase) (paidAmount : Option ℚ)
    (paymentStatus : Option PaymentStatus) (paymentMethod : Option String) :
    Purchase :=
  { p with paidAmount := paidAmount.getD p.paidAmount,
           paymentStatus := paymentStatus.getD p.paymentStatus,
           paymentMethod := paymentMethod.getD p.paymentMethod }

/-- updatePaymentStatus (purchaseRoutes.js lines 219-259): findOne scoped by
{_id, createdBy} (else 404), set the provided payment fields, then save,
which runs the pre-save derivation and the post-save statistics update. -/
def updatePaymentStatus (uid : ℕ) (now : ℤ) (pid : ℕ) (paidAmount : Option ℚ)
    (paymentStatus : Option PaymentStatus) (paymentMethod : Option String)
    (s : Store) : Except AppError (Store × Purchase) :=
  match s.purchases.find? (fun p => p.id == pid && p.createdBy == uid) with
  | none => .error .notFound
  | some p =>
    let p2 := preSave now (applyPaymentFields p paidAmount paymentStatus paymentMethod)
    let purchases := s.purchases.map (fun q => if q.id == pid then p2 else q)
    .ok ({ purchases := purchases,
           customers := reconcile purchases s.customers p2.customer },
         p2)

/-- getPurchase (purchaseRoutes.js lines 82-101): findOne scoped by
{_id, createdBy}, 404 when no match. -/
def getPurchase (uid : ℕ) (pid : ℕ) (s : Store) : Except AppError Purchase :=
  match s.purchases.find? (fun p => p.id == pid && p.createdBy == uid) with
  | none => .error .notFound
  | some p => .ok p

/-- Outcome tag of deleteCustomer's two success branches. -/
inductive CustomerDeleteOutcome where
  | deactivated
  | deleted
deriving DecidableEq, Repr

/-- deleteCustomer (customer routes, lines 180-221): findOne scoped by
{_id, createdBy} (else 404); countDocuments({customer}) over every shop; when
the count is positive set isActive = false and save (soft delete), otherwise
Customer.findByIdAndDelete (hard delete). Purchases are never touched. -/
def deleteCustomer (uid : ℕ) (cid : ℕ) (s : Store) :
    Except AppError (Store × CustomerDeleteOutcome) :=
  match s.customers.find? (fun c => c.id == cid && c.createdBy == uid) with
  | none => .error .notFound
  | some c =>
    let purchaseCount := (s.purchases.filter (fun p => p.customer == c.id)).length
    if 0 < purchaseCount then
      .ok ({ s with customers :=
               s.customers.map (fun d => if d.id == cid then { d with isActive := false } else d) },
           .deactivated)
    else
      .ok ({ s with customers := s.customers.filter (fun d => d.id != cid) },
           .deleted)

/-- The result row of the monthly $group stages: revenue = $sum totalAmount,
transactions = $sum 1, paid = $sum paidAmount; the empty group falls back to
the all-zero object, which coincides with folding over no rows. -/
structure MonthAgg where
  revenue : ℚ
  transactions : ℕ
  paid : ℚ
deriving DecidableEq, Repr

/-- One month aggregation of getMonthlyComparison: $match on createdBy and a
purchaseDate range ($gte lo, and $lte hi when a bound is given), then the
$group sums. -/
def aggregateRange (uid : ℕ) (lo : ℤ) (hi : Option ℤ) (ps : List Purchase) :
    MonthAgg :=
  let sel := ps.filter
    (fun p => p.createdBy == uid && decide (lo ≤ p.purchaseDate) &&
      (match hi with
       | none => true
       | some h => decide (p.purchaseDate ≤ h)))
  { revenue := sel.foldl (fun s p => s + p.totalAmount) 0,
    transactions := sel.length,
    paid := sel.foldl (fun s p => s + p.paidAmount) 0 }

/-- Number.prototype.toFixed(2) followed by parseFloat, on exact rationals:
round to the nearest hundredth. -/
def round2 (q : ℚ) : ℚ := (round (q * 100) : ℤ) / 100

/-- The response payload of getMonthlyComparison. -/
structure MonthlyComparison where
  currentMonth : MonthAgg
  previousMonth : MonthAgg
  revenueGrowth : ℚ
  transactionGrowth : ℚ
deriving DecidableEq, Repr

/-- getMonthlyComparison (dashboard routes, lines 243-318): aggregate the
current month (purchaseDate ≥ curStart) and the previous month
(prevStart ≤ purchaseDate ≤ prevEnd), then the growth percentages: each is
((current − previous) / previous × 100).toFixed(2) when its own previous
value is positive, and the literal 0 otherwise. -/
def getMonthlyComparison (uid : ℕ) (curStart prevStart prevEnd : ℤ)
    (ps : List Purchase) : MonthlyComparison :=
  let current := aggregateRange uid curStart none ps
  let previous := aggregateRange uid prevStart (some prevEnd) ps
  { currentMonth := current,
    previousMonth := previous,
    revenueGrowth :=
      if 0 < previous.revenue then
        round2 ((current.revenue - previous.revenue) / previous.revenue * 100)
      else 0,
    transactionGrowth :=
      if 0 < previous.transactions then
        round2 (((current.transactions : ℚ) - (previous.transactions : ℚ)) /
          (previous.transactions : ℚ) * 100)
      else 0 }


def custStats1 : Customer := ⟨2, "a", "a@b.c", "1", 1, 100, some 5, true, "", 7⟩

def paidPurchase : Purchase :=
  ⟨1, 2, [], 100, .completed, "cash", 5, none, 100, 0, "", 7⟩

def storeOne : Store := ⟨[paidPurchase], [custStats1]⟩

def storeOneDeactivated : Store :=
  ⟨[paidPurchase], [{ custStats1 with isActive := false }]⟩

def storeNoPurch : Store := ⟨[], [custStats1]⟩

def emptyStore : Store := ⟨[], []⟩

def prevMonthPurchase : Purchase :=
  ⟨1, 2, [], 3, .pending, "cash", 5, none, 0, 3, "", 7⟩

def curMonthPurchase : Purchase :=
  ⟨2, 2, [], 1, .pending, "cash", 25, none, 0, 1, "", 7⟩

def prevMonthZero : Purchase :=
  ⟨3, 2, [], 0, .pending, "cash", 5, none, 0, 0, "", 7⟩

def curMonthA : Purchase :=
  ⟨4, 2, [], 1, .pending, "cash", 25, none, 0, 1, "", 7⟩

def curMonthB : Purchase :=
  ⟨5, 2, [], 1, .pending, "cash", 25, none, 0, 1, "", 7⟩

def freshCustomer : Customer := ⟨2, "a", "a@b.c", "1", 0, 0, none, true, "", 7⟩

def createStore : Store := ⟨[], [freshCustomer]⟩

def newPurchase : Purchase :=
  ⟨1, 2, [], 50, .pending, "cash", 5, none, 0, 0, "", 0⟩

def unpaidPurchase : Purchase :=
  ⟨1, 2, [], 10, .pending, "cash", 5, none, 0, 10, "", 7⟩

def storeUnpaid : Store := ⟨[unpaidPurchase], [custStats1]⟩

def setPaid5 : PurchaseUpdate := ⟨none, none, none, some 5, none, none, none, none⟩

def bumpTotal : PurchaseUpdate := ⟨none, none, some 200, none, none, none, none, none⟩

def storeOneAfterDelete : Store := ⟨[], [custStats1]⟩

def storeOneAfterBump : Store :=
  ⟨[{ paidPurchase with totalAmount := 200 }], [custStats1]⟩

def createOutStore : Store :=
  { purchases := createStore.purchases ++ [preSave 0 { newPurchase with createdBy := 7 }],
    customers := reconcile (createStore.purchases ++ [preSave 0 { newPurchase with createdBy := 7 }])
      createStore.customers (preSave 0 { newPurchase with createdBy := 7 }).customer }

def payApplied : Purchase := preSave 0 (applyPaymentFields unpaidPurchase (some 5) none none)

def payOutStore : Store :=
  { purchases := storeUnpaid.purchases.map (fun q => if q.id == 1 then payApplied else q),
    customers := reconcile (storeUnpaid.purchases.map (fun q => if q.id == 1 then payApplied else q))
      storeUnpaid.customers payApplied.customer }

def updOut : Purchase := applyUpdate unpaidPurchase setPaid5

def updOutStore : Store :=
  { storeUnpaid with purchases :=
      storeUnpaid.purchases.map (fun q => if q.id == 1 then applyUpdate q setPaid5 else q) }

def custReconciled : Customer :=
  updatePurchaseStats (createStore.purchases ++ [preSave 0 { newPurchase with createdBy := 7 }])
    freshCustomer

lemma purchase_ext (a b : Purchase) (h1 : a.id = b.id) (h2 : a.customer = b.customer)
    (h3 : a.items = b.items) (h4 : a.totalAmount = b.totalAmount)
    (h5 : a.paymentStatus = b.paymentStatus) (h6 : a.paymentMethod = b.paymentMethod)
    (h7 : a.purchaseDate = b.purchaseDate) (h8 : a.dueDate = b.dueDate)
    (h9 : a.paidAmount = b.paidAmount) (h10 : a.remainingAmount = b.remainingAmount)
    (h11 : a.notes = b.notes) (h12 : a.createdBy = b.createdBy) : a = b := by
  cases a; cases b; simp_all

lemma deriveItem_deriveItem (it : PurchaseItem) :
    deriveItem (deriveItem it) = deriveItem it := rfl

lemma map_deriveItem_idem (l : List PurchaseItem) :
    (l.map deriveItem).map deriveItem = l.map deriveItem := by
  induction l with
  | nil => rfl
  | cons a l ih => simp [ih, deriveItem]

lemma itemsTotal_foldl_map (l : List PurchaseItem) (a : ℚ) :
    (l.map deriveItem).foldl (fun s it => s + it.quantity * it.unitPrice) a
      = l.foldl (fun s it => s + it.quantity * it.unitPrice) a := by
  induction l generalizing a with
  | nil => rfl
  | cons b l ih => simp [deriveItem, ih]

lemma itemsTotal_map_deriveItem (l : List PurchaseItem) :
    itemsTotal (l.map deriveItem) = itemsTotal l := by
  unfold itemsTotal; exact itemsTotal_foldl_map l 0

@[simp] lemma preSave_customer (now : ℤ) (p : Purchase) :
    (preSave now p).customer = p.customer := rfl

@[simp] lemma preSave_paidAmount (now : ℤ) (p : Purchase) :
    (preSave now p).paidAmount = p.paidAmount := rfl

@[simp] lemma preSave_dueDate (now : ℤ) (p : Purchase) :
    (preSave now p).dueDate = p.dueDate := rfl

@[simp] lemma preSave_items (now : ℤ) (p : Purchase) :
    (preSave now p).items = p.items.map deriveItem := rfl

lemma preSave_totalAmount (now : ℤ) (p : Purchase) :
    (preSave now p).totalAmount =
      if p.items = [] then p.totalAmount
      else if p.totalAmount = 0 then itemsTotal p.items
      else p.totalAmount := rfl

lemma preSave_remainingAmount (now : ℤ) (p : Purchase) :
    (preSave now p).remainingAmount = (preSave now p).totalAmount - p.paidAmount := rfl

lemma preSave_paymentStatus (now : ℤ) (p : Purchase) :
    (preSave now p).paymentStatus =
      if (preSave now p).remainingAmount ≤ 0 then PaymentStatus.completed
      else if pastDue now p.dueDate then PaymentStatus.overdue
      else p.paymentStatus := rfl

lemma preSave_totalAmount_idem (now : ℤ) (p : Purchase) :
    (preSave now (preSave now p)).totalAmount = (preSave now p).totalAmount := by
  rw [preSave_totalAmount now (preSave now p), preSave_totalAmount now p, preSave_items]
  by_cases hnil : p.items = []
  · simp [hnil]
  · rw [if_neg hnil, if_neg (by simpa using hnil)]
    by_cases hz : p.totalAmount = 0
    · rw [if_pos hz]
      by_cases hz2 : itemsTotal p.items = 0
      · simp [hz2, itemsTotal_map_deriveItem]
      · rw [if_neg hz2]
    · rw [if_neg hz, if_neg hz]

theorem preSave_preSave (now : ℤ) (p : Purchase) :
    preSave now (preSave now p) = preSave now p := by
  have htot := preSave_totalAmount_idem now p
  have hrem : (preSave now (preSave now p)).remainingAmount
      = (preSave now p).remainingAmount := by
    rw [preSave_remainingAmount now (preSave now p), preSave_remainingAmount now p,
      htot, preSave_paidAmount]
  have hst : (preSave now (preSave now p)).paymentStatus
      = (preSave now p).paymentStatus := by
    rw [preSave_paymentStatus now (preSave now p), hrem, preSave_dueDate]
    rw [preSave_paymentStatus now p]
    by_cases h1 : (preSave now p).remainingAmount ≤ 0
    · simp [h1]
    · by_cases h2 : pastDue now p.dueDate
      · simp [h1, h2]
      · simp [h1, h2]
  have hitems : (preSave now (preSave now p)).items = (preSave now p).items := by
    rw [preSave_items, preSave_items, map_deriveItem_idem]
  exact purchase_ext _ _ rfl rfl hitems htot hst rfl rfl rfl rfl hrem rfl rfl

def itemX : PurchaseItem := ⟨"x", 1, 10, 0⟩

def cancelledPaid : Purchase :=
  ⟨1, 2, [], 10, .cancelled, "cash", 5, none, 10, 10, "", 7⟩

def cancelledOpen : Purchase :=
  ⟨1, 2, [], 10, .cancelled, "cash", 5, none, 0, 10, "", 7⟩

def completedUnpaid : Purchase :=
  ⟨1, 2, [], 10, .completed, "cash", 5, none, 0, 0, "", 7⟩

def zeroOverride : Purchase :=
  ⟨1, 2, [itemX], 0, .pending, "cash", 5, none, 0, 0, "", 7⟩

def overridden : Purchase :=
  ⟨1, 2, [itemX], 99, .pending, "cash", 5, none, 0, 0, "", 7⟩

/-- Claim C6: after every derivation pass remainingAmount equals
totalAmount minus paidAmount (the stored value is not clamped at zero,
being literally the difference), and derivation is idempotent for a fixed
now: deriving an already-derived record yields the identical record. -/
theorem remaining_amount_equation_and_idempotence (now : ℤ) (p : Purchase) :
    (preSave now p).remainingAmount
      = (preSave now p).totalAmount - (preSave now p).paidAmount ∧
    preSave now (preSave now p) = preSave now p :=
  ⟨rfl, preSave_preSave now p⟩

/-- Claim C2 (amended): the pre-save derivation is not skipped for
cancelled purchases. A cancelled purchase is set to completed when its
derived remainingAmount is ≤ 0, to overdue when the remainder is positive
and now is strictly past a set dueDate, and keeps cancelled only in the
remaining case. -/
theorem cancelled_overwritten_by_derivation (now : ℤ) (p : Purchase)
    (h : p.paymentStatus = PaymentStatus.cancelled) :
    (preSave now p).paymentStatus =
      if (preSave now p).remainingAmount ≤ 0 then PaymentStatus.completed
      else if pastDue now p.dueDate then PaymentStatus.overdue
      else PaymentStatus.cancelled := by
  rw [preSave_paymentStatus, h]

/-- Witness for C2: a cancelled purchase with a positive remainder and no
due date keeps its cancelled status. -/
theorem cancelled_overwritten_witness :
    (preSave 0 cancelledOpen).paymentStatus = PaymentStatus.cancelled :=
  (cancelled_overwritten_by_derivation 0 cancelledOpen rfl).trans
    (by norm_num [preSave, cancelledOpen, pastDue])

/-- Counterexample to C2 as stated: a cancelled purchase whose
remainingAmount is ≤ 0 (totalAmount 10, paidAmount 10) is rewritten to
completed by the derivation, so cancelled is not sticky. -/
theorem cancelled_sticky_cex :
    cancelledPaid.paymentStatus = PaymentStatus.cancelled ∧
    (preSave 0 cancelledPaid).paymentStatus = PaymentStatus.completed := by
  refine ⟨rfl, ?_⟩
  norm_num [preSave, cancelledPaid]

/-- Claim C3 (amended): for a non-cancelled purchase the derived status
is completed when remainingAmount ≤ 0, overdue when the remainder is
positive and now is strictly past a set dueDate (now equal to dueDate is
not overdue), and otherwise the stored status is left unchanged — there is
no branch assigning pending. -/
theorem status_derivation_case_split (now : ℤ) (p : Purchase)
    (h : p.paymentStatus ≠ PaymentStatus.cancelled) :
    ((preSave now p).remainingAmount ≤ 0 →
      (preSave now p).paymentStatus = PaymentStatus.completed) ∧
    (0 < (preSave now p).remainingAmount → pastDue now p.dueDate = true →
      (preSave now p).paymentStatus = PaymentStatus.overdue) ∧
    (0 < (preSave now p).remainingAmount → pastDue now p.dueDate = false →
      (preSave now p).paymentStatus = p.paymentStatus) ∧
    (p.dueDate = some now → pastDue now p.dueDate = false) := by
  refine ⟨?_, ?_, ?_, ?_⟩
  · intro h1; rw [preSave_paymentStatus, if_pos h1]
  · intro h1 h2
    rw [preSave_paymentStatus, if_neg (not_le.mpr h1), if_pos h2]
  · intro h1 h2
    rw [preSave_paymentStatus, if_neg (not_le.mpr h1), if_neg (by simp [h2])]
  · intro h1; simp [pastDue, h1]

/-- Witness for C3: a purchase with positive remainder and no due date
keeps its stored status (here completed). -/
theorem status_derivation_case_split_witness :
    (preSave 0 completedUnpaid).paymentStatus = PaymentStatus.completed :=
  ((status_derivation_case_split 0 completedUnpaid (by decide)).2.2.1
    (by norm_num [preSave, completedUnpaid]) rfl).trans rfl

/-- Counterexample to C3 as stated: a non-cancelled purchase with
positive remainder and no due date falls into the final case, but its
status stays completed instead of becoming pending. -/
theorem status_derivation_cex :
    completedUnpaid.paymentStatus ≠ PaymentStatus.cancelled ∧
    0 < (preSave 0 completedUnpaid).remainingAmount ∧
    completedUnpaid.dueDate = none ∧
    (preSave 0 completedUnpaid).paymentStatus ≠ PaymentStatus.pending := by
  refine ⟨by decide, ?_, rfl, ?_⟩
  · norm_num [preSave, completedUnpaid]
  · norm_num [preSave, completedUnpaid, pastDue]
    decide

/-- Claim C5 (amended): with a non-empty items list, derivation keeps a
nonzero caller-supplied totalAmount and replaces a zero (or absent, which
is indistinguishable) totalAmount with the sum of quantity × unitPrice over
the items; every item totalPrice is recomputed as quantity × unitPrice. -/
theorem total_amount_override_or_sum (now : ℤ) (p : Purchase) (h : p.items ≠ []) :
    (p.totalAmount ≠ 0 → (preSave now p).totalAmount = p.totalAmount) ∧
    (p.totalAmount = 0 → (preSave now p).totalAmount = itemsTotal p.items) ∧
    ∀ it ∈ (preSave now p).items, it.totalPrice = it.quantity * it.unitPrice := by
  refine ⟨?_, ?_, ?_⟩
  · intro hz; rw [preSave_totalAmount, if_neg h, if_neg hz]
  · intro hz; rw [preSave_totalAmount, if_neg h, if_pos hz]
  · intro it hit
    rw [preSave_items] at hit
    obtain ⟨it0, hmem, rfl⟩ := List.mem_map.mp hit
    rfl

/-- Witness for C5: a nonzero override (99) survives derivation. -/
theorem total_amount_override_witness :
    (preSave 0 overridden).totalAmount = 99 :=
  ((total_amount_override_or_sum 0 overridden (by simp [overridden])).1
    (by norm_num [overridden])).trans rfl

/-- Counterexample to C5 as stated: an explicit zero totalAmount override
with one item (1 × 10) is replaced by the computed sum 10, because the
falsy check cannot distinguish zero from absent. -/
theorem total_amount_zero_override_cex :
    zeroOverride.items ≠ [] ∧ zeroOverride.totalAmount = 0 ∧
    (preSave 0 zeroOverride).totalAmount = 10 ∧
    (preSave 0 zeroOverride).totalAmount ≠ zeroOverride.totalAmount := by
  refine ⟨by simp [zeroOverride], rfl, ?_, ?_⟩
  · norm_num [preSave, zeroOverride, itemsTotal, itemX]
  · norm_num [preSave, zeroOverride, itemsTotal, itemX]

/-- Claim C10: when the aggregation over the customer's purchases returns
no rows, updatePurchaseStats leaves totalPurchases, totalSpent and
lastPurchaseDate at their previous stored values; with at least one
purchase the three fields are overwritten with the fold result. -/
theorem update_stats_empty_frame (purchases : List Purchase) (c : Customer) :
    (customerPurchases purchases c.id = [] → updatePurchaseStats purchases c = c) ∧
    (customerPurchases purchases c.id ≠ [] →
      updatePurchaseStats purchases c =
        { c with totalPurchases := (customerPurchases purchases c.id).length,
                 totalSpent := sumTotalAmount (customerPurchases purchases c.id),
                 lastPurchaseDate := maxPurchaseDate (customerPurchases purchases c.id) }) := by
  unfold updatePurchaseStats
  constructor
  · intro h; rw [if_pos h]
  · intro h; rw [if_neg h]

/-- Witness for C10: reconciling a customer against an empty purchase
list leaves the stored aggregates (totalPurchases 1) untouched. -/
theorem update_stats_empty_frame_witness :
    updatePurchaseStats [] custStats1 = custStats1 ∧ custStats1.totalPurchases = 1 :=
  ⟨(update_stats_empty_frame [] custStats1).1 rfl, rfl⟩

lemma find?_map_update (cs : List Customer) (cid : ℕ) (f : Customer → Customer)
    (hf : ∀ d, (f d).id = d.id) :
    (cs.map (fun d => if d.id == cid then f d else d)).find? (fun d => d.id == cid)
      = (cs.find? (fun d => d.id == cid)).map f := by
  induction cs with
  | nil => rfl
  | cons a l ih =>
    cases hb : (a.id == cid) with
    | false =>
      rw [List.map_cons, if_neg (by simp [hb]), List.find?_cons_of_neg,
        List.find?_cons_of_neg, ih]
      · simp [hb]
      · simp [hb]
    | true =>
      rw [List.map_cons, if_pos hb, List.find?_cons_of_pos, List.find?_cons_of_pos]
      · rfl
      · exact hb
      · rw [hf]; exact hb

lemma find?_filter_ne (cs : List Customer) (cid : ℕ) :
    (cs.filter (fun d => d.id != cid)).find? (fun d => d.id == cid) = none := by
  rw [List.find?_eq_none]
  intro x hx
  have hne := (List.mem_filter.mp hx).2
  simp at hne ⊢
  exact hne

/-- Claim C7: deleting a customer with at least one purchase sets
isActive to false and deletes neither the customer nor any purchase, while
deleting a customer with zero purchases removes the customer record. -/
theorem delete_customer_soft_or_hard (uid cid : ℕ) (s s' : Store)
    (out : CustomerDeleteOutcome)
    (h : deleteCustomer uid cid s = .ok (s', out)) :
    s'.purchases = s.purchases ∧
    (s.purchases.filter (fun p => p.customer == cid) ≠ [] →
      out = .deactivated ∧
      s'.customers.find? (fun d => d.id == cid)
        = (s.customers.find? (fun d => d.id == cid)).map
            (fun d => { d with isActive := false }) ∧
      s'.customers.length = s.customers.length) ∧
    (s.purchases.filter (fun p => p.customer == cid) = [] →
      out = .deleted ∧
      s'.customers.find? (fun d => d.id == cid) = none) := by
  unfold deleteCustomer at h
  split at h
  · exact absurd h (by simp)
  next c hfind =>
    have hcid : c.id = cid := by
      have hpred := List.find?_some hfind
      simp at hpred
      exact hpred.1
    dsimp only at h
    split at h
    next hcnt =>
      rw [hcid] at hcnt
      simp only [Except.ok.injEq, Prod.mk.injEq] at h
      obtain ⟨hs, hout⟩ := h
      subst hs; subst hout
      refine ⟨rfl, fun _ => ⟨rfl, ?_, ?_⟩, fun h0 => ?_⟩
      · exact find?_map_update s.customers cid (fun d => { d with isActive := false })
          (fun d => rfl)
      · exact List.length_map _ _
      · rw [h0] at hcnt; simp at hcnt
    next hcnt =>
      rw [hcid] at hcnt
      simp only [Except.ok.injEq, Prod.mk.injEq] at h
      obtain ⟨hs, hout⟩ := h
      subst hs; subst hout
      have hz : s.purchases.filter (fun p => p.customer == cid) = [] := by
        rcases List.eq_nil_or_concat (s.purchases.filter (fun p => p.customer == cid)) with h0 | ⟨l, a, h0⟩
        · exact h0
        · exfalso; apply hcnt; rw [h0]; simp
      refine ⟨rfl, fun h0 => absurd hz h0, fun _ => ⟨rfl, ?_⟩⟩
      exact find?_filter_ne s.customers cid

/-- Witness for C7: both deleteCustomer branches on concrete stores —
soft delete keeps the purchase list and stores the deactivated customer,
hard delete removes the record. -/
theorem delete_customer_soft_or_hard_witness :
    storeOneDeactivated.purchases = storeOne.purchases ∧
    storeOneDeactivated.customers.find? (fun d => d.id == 2)
      = some { custStats1 with isActive := false } ∧
    (emptyStore.customers.find? (fun d => d.id == 2) = none) := by
  have h := delete_customer_soft_or_hard 7 2 storeOne storeOneDeactivated .deactivated rfl
  have h2 := delete_customer_soft_or_hard 7 2 storeNoPurch ⟨[], []⟩ .deleted rfl
  refine ⟨h.1, ?_, ?_⟩
  · have h3 := (h.2.1 (by simp [storeOne, paidPurchase])).2.1
    rw [h3]; rfl
  · exact (h2.2.2 rfl).2

/-- Claim C8: every purchase operation given an id that matches no
purchase of the caller's shop (unknown id or owned by another shop) fails
with NotFoundError, and creation fails with NotFoundError when the customer
id matches no customer of the caller's shop. -/
theorem cross_shop_not_found (uid pid : ℕ) (now : ℤ) (s : Store)
    (u : PurchaseUpdate) (pa : Option ℚ) (pst : Option PaymentStatus)
    (pm : Option String) (input : Purchase)
    (hp : s.purchases.find? (fun p => p.id == pid && p.createdBy == uid) = none)
    (hc : s.customers.find? (fun c => c.id == input.customer && c.createdBy == uid) = none) :
    getPurchase uid pid s = .error .notFound ∧
    updatePurchase uid pid u s = .error .notFound ∧
    deletePurchase uid pid s = .error .notFound ∧
    updatePaymentStatus uid now pid pa pst pm s = .error .notFound ∧
    createPurchase uid now input s = .error .notFound := by
  unfold getPurchase updatePurchase deletePurchase updatePaymentStatus createPurchase
  rw [hp, hc]
  exact ⟨rfl, rfl, rfl, rfl, rfl⟩

/-- Witness for C8: all five operations on an empty store fail with
NotFoundError. -/
theorem cross_shop_not_found_witness :
    getPurchase 7 1 emptyStore = .error .notFound ∧
    createPurchase 7 0 overridden emptyStore = .error .notFound := by
  have h := cross_shop_not_found 7 1 0 emptyStore
    ⟨none, none, none, none, none, none, none, none⟩ none none none overridden rfl rfl
  exact ⟨h.1, h.2.2.2.2⟩

/-- Claim C9 (amended): each growth percentage equals
(current − previous) / previous × 100 rounded to two decimal places when
the previous-month value of that same metric is strictly positive, and is
exactly 0 otherwise; transaction growth is conditioned on the previous
transaction count, not on previous revenue. -/
theorem monthly_growth_conditional (uid : ℕ) (curStart prevStart prevEnd : ℤ)
    (ps : List Purchase) :
    ∀ m, m = getMonthlyComparison uid curStart prevStart prevEnd ps →
      (0 < m.previousMonth.revenue →
        m.revenueGrowth = round2 ((m.currentMonth.revenue - m.previousMonth.revenue)
          / m.previousMonth.revenue * 100)) ∧
      (¬ 0 < m.previousMonth.revenue → m.revenueGrowth = 0) ∧
      (0 < m.previousMonth.transactions →
        m.transactionGrowth = round2 (((m.currentMonth.transactions : ℚ)
          - (m.previousMonth.transactions : ℚ)) / (m.previousMonth.transactions : ℚ) * 100)) ∧
      (m.previousMonth.transactions = 0 → m.transactionGrowth = 0) := by
  intro m hm; subst hm
  unfold getMonthlyComparison
  dsimp only
  refine ⟨?_, ?_, ?_, ?_⟩
  · intro h1; rw [if_pos h1]
  · intro h1; rw [if_neg h1]
  · intro h1; rw [if_pos h1]
  · intro h1; rw [if_neg (by simp [h1])]

/-- Witness for C9: with previous-month revenue 3 the revenue growth is
the rounded formula value. -/
theorem monthly_growth_conditional_witness :
    (getMonthlyComparison 7 20 0 10 [prevMonthPurchase, curMonthPurchase]).revenueGrowth
      = round2 (((getMonthlyComparison 7 20 0 10 [prevMonthPurchase, curMonthPurchase]).currentMonth.revenue
          - (getMonthlyComparison 7 20 0 10 [prevMonthPurchase, curMonthPurchase]).previousMonth.revenue)
          / (getMonthlyComparison 7 20 0 10 [prevMonthPurchase, curMonthPurchase]).previousMonth.revenue * 100) :=
  (monthly_growth_conditional 7 20 0 10 [prevMonthPurchase, curMonthPurchase] _ rfl).1
    (by norm_num [getMonthlyComparison, aggregateRange, prevMonthPurchase,
      curMonthPurchase, List.filter])

/-- Counterexample to C9 as stated: with previous revenue 3 and current
revenue 1 the returned growth is the rounded −66.67, not the exact
−200/3; and with previous revenue 0 but one previous transaction the
transaction growth is 100, not 0. -/
theorem monthly_growth_cex :
    0 < (getMonthlyComparison 7 20 0 10 [prevMonthPurchase, curMonthPurchase]).previousMonth.revenue ∧
    (getMonthlyComparison 7 20 0 10 [prevMonthPurchase, curMonthPurchase]).revenueGrowth
      ≠ ((getMonthlyComparison 7 20 0 10 [prevMonthPurchase, curMonthPurchase]).currentMonth.revenue
          - (getMonthlyComparison 7 20 0 10 [prevMonthPurchase, curMonthPurchase]).previousMonth.revenue)
          / (getMonthlyComparison 7 20 0 10 [prevMonthPurchase, curMonthPurchase]).previousMonth.revenue * 100 ∧
    (getMonthlyComparison 7 20 0 10 [prevMonthZero, curMonthA, curMonthB]).previousMonth.revenue = 0 ∧
    (getMonthlyComparison 7 20 0 10 [prevMonthZero, curMonthA, curMonthB]).transactionGrowth ≠ 0 := by
  refine ⟨?_, ?_, ?_, ?_⟩ <;>
    norm_num [getMonthlyComparison, aggregateRange, round2, round_eq, prevMonthPurchase,
      curMonthPurchase, prevMonthZero, curMonthA, curMonthB, List.filter]

/-- Claim C4 (amended): create and updatePayment run the pre-save
derivation on the record before it is persisted; update (findOneAndUpdate)
persists the supplied fields verbatim with no derivation. -/
theorem mutation_derivation_paths (uid pid : ℕ) (now : ℤ) (s : Store) :
    (∀ input s1, createPurchase uid now input s = .ok s1 →
      s1.purchases = s.purchases ++ [preSave now { input with createdBy := uid }]) ∧
    (∀ pa pst pm s1 p1, updatePaymentStatus uid now pid pa pst pm s = .ok (s1, p1) →
      ∃ p, s.purchases.find? (fun q => q.id == pid && q.createdBy == uid) = some p ∧
        p1 = preSave now (applyPaymentFields p pa pst pm) ∧
        s1.purchases = s.purchases.map (fun q => if q.id == pid then p1 else q)) ∧
    (∀ u s1 p1, updatePurchase uid pid u s = .ok (s1, p1) →
      ∃ p, s.purchases.find? (fun q => q.id == pid && q.createdBy == uid) = some p ∧
        p1 = applyUpdate p u ∧
        s1.purchases = s.purchases.map (fun q => if q.id == pid then applyUpdate q u else q)) := by
  refine ⟨?_, ?_, ?_⟩
  · intro input s1 h
    unfold createPurchase at h
    split at h
    · exact absurd h (by simp)
    next c0 hfind0 =>
      dsimp only at h
      rw [Except.ok.injEq] at h
      subst h
      rfl
  · intro pa pst pm s1 p1 h
    unfold updatePaymentStatus at h
    split at h
    · exact absurd h (by simp)
    next p hfind =>
      dsimp only at h
      rw [Except.ok.injEq, Prod.mk.injEq] at h
      obtain ⟨hs, hp⟩ := h
      subst hs; subst hp
      exact ⟨p, hfind, rfl, rfl⟩
  · intro u s1 p1 h
    unfold updatePurchase at h
    split at h
    · exact absurd h (by simp)
    next p hfind =>
      dsimp only at h
      rw [Except.ok.injEq, Prod.mk.injEq] at h
      obtain ⟨hs, hp⟩ := h
      subst hs; subst hp
      exact ⟨p, hfind, rfl, rfl⟩

/-- Witness for C4: the three mutation paths on concrete stores. -/
theorem mutation_derivation_paths_witness :
    createOutStore.purchases
      = createStore.purchases ++ [preSave 0 { newPurchase with createdBy := 7 }] ∧
    (∃ p, storeUnpaid.purchases.find? (fun q => q.id == 1 && q.createdBy == 7) = some p ∧
      payApplied = preSave 0 (applyPaymentFields p (some 5) none none) ∧
      payOutStore.purchases
        = storeUnpaid.purchases.map (fun q => if q.id == 1 then payApplied else q)) ∧
    (∃ p, storeUnpaid.purchases.find? (fun q => q.id == 1 && q.createdBy == 7) = some p ∧
      updOut = applyUpdate p setPaid5 ∧
      updOutStore.purchases
        = storeUnpaid.purchases.map (fun q => if q.id == 1 then applyUpdate q setPaid5 else q)) :=
  ⟨(mutation_derivation_paths 7 1 0 createStore).1 newPurchase createOutStore rfl,
   (mutation_derivation_paths 7 1 0 storeUnpaid).2.1 (some 5) none none payOutStore payApplied rfl,
   (mutation_derivation_paths 7 1 0 storeUnpaid).2.2 setPaid5 updOutStore updOut rfl⟩

/-- Counterexample to C4 as stated: updating paidAmount to 5 through the
update operation persists a purchase whose stored remainingAmount 10
differs from totalAmount − paidAmount = 5. -/
theorem mutation_derivation_cex :
    (updatePurchase 7 1 setPaid5 storeUnpaid).toOption.map (fun r => r.2)
      = some { unpaidPurchase with paidAmount := 5 } ∧
    ({ unpaidPurchase with paidAmount := 5 } : Purchase).remainingAmount
      ≠ ({ unpaidPurchase with paidAmount := 5 } : Purchase).totalAmount
        - ({ unpaidPurchase with paidAmount := 5 } : Purchase).paidAmount := by
  refine ⟨rfl, ?_⟩
  norm_num [unpaidPurchase]

lemma updatePurchaseStats_id (P : List Purchase) (c : Customer) :
    (updatePurchaseStats P c).id = c.id := by
  unfold updatePurchaseStats; dsimp only; split <;> rfl

lemma statsMatchFold_update (P : List Purchase) (c : Customer)
    (h : customerPurchases P c.id ≠ []) :
    statsMatchFold P (updatePurchaseStats P c) := by
  unfold updatePurchaseStats
  rw [if_neg h]
  exact ⟨rfl, rfl, rfl⟩

lemma customerPurchases_ne_nil_of_mem (P : List Purchase) (p : Purchase) (cid : ℕ)
    (hmem : p ∈ P) (hc : p.customer = cid) : customerPurchases P cid ≠ [] := by
  unfold customerPurchases
  exact List.ne_nil_of_mem (List.mem_filter.mpr ⟨hmem, by simp [hc]⟩)

/-- Claim C1 (amended): after a successful create or updatePayment the
owning customer's stored aggregates equal the fold over their live purchase
set, and after a successful delete they do whenever the remaining purchase
set of that customer is non-empty; the update operation triggers no
reconciliation. -/
theorem aggregates_after_mutations (uid pid : ℕ) (now : ℤ) (s : Store) :
    (∀ input s1 c1, createPurchase uid now input s = .ok s1 →
      s1.customers.find? (fun d => d.id == input.customer) = some c1 →
      statsMatchFold s1.purchases c1) ∧
    (∀ pa pst pm s1 p1 c1, updatePaymentStatus uid now pid pa pst pm s = .ok (s1, p1) →
      s1.customers.find? (fun d => d.id == p1.customer) = some c1 →
      statsMatchFold s1.purchases c1) ∧
    (∀ s1 p c1, deletePurchase uid pid s = .ok s1 →
      s.purchases.find? (fun q => q.id == pid && q.createdBy == uid) = some p →
      s1.customers.find? (fun d => d.id == p.customer) = some c1 →
      customerPurchases s1.purchases c1.id ≠ [] →
      statsMatchFold s1.purchases c1) := by
  refine ⟨?_, ?_, ?_⟩
  · intro input s1 c1 h hfindc
    unfold createPurchase at h
    split at h
    · exact absurd h (by simp)
    next c0 hfind0 =>
      dsimp only at h
      rw [Except.ok.injEq] at h
      subst h
      unfold reconcile at hfindc
      simp only [preSave_customer] at hfindc
      rw [find?_map_update _ _ _ (updatePurchaseStats_id _)] at hfindc
      cases hc2 : s.customers.find? (fun d => d.id == input.customer) with
      | none => rw [hc2] at hfindc; simp at hfindc
      | some c2 =>
        rw [hc2] at hfindc
        simp only [Option.map_some', Option.some.injEq] at hfindc
        subst hfindc
        apply statsMatchFold_update
        have hid : c2.id = input.customer := by
          have hpred := List.find?_some hc2
          simpa using hpred
        rw [hid]
        exact customerPurchases_ne_nil_of_mem _
          (preSave now { input with createdBy := uid }) _
          (List.mem_append_right _ (List.mem_singleton_self _)) rfl
  · intro pa pst pm s1 p1 c1 h hfindc
    unfold updatePaymentStatus at h
    split at h
    · exact absurd h (by simp)
    next p hfind =>
      dsimp only at h
      rw [Except.ok.injEq, Prod.mk.injEq] at h
      obtain ⟨hs, hp⟩ := h
      subst hs; subst hp
      unfold reconcile at hfindc
      rw [find?_map_update _ _ _ (updatePurchaseStats_id _)] at hfindc
      cases hc2 : s.customers.find?
          (fun d => d.id == (preSave now (applyPaymentFields p pa pst pm)).customer) with
      | none => rw [hc2] at hfindc; simp at hfindc
      | some c2 =>
        rw [hc2] at hfindc
        simp only [Option.map_some', Option.some.injEq] at hfindc
        subst hfindc
        apply statsMatchFold_update
        have hid : c2.id = (preSave now (applyPaymentFields p pa pst pm)).customer := by
          have hpred := List.find?_some hc2
          simpa using hpred
        rw [hid]
        have hmem : preSave now (applyPaymentFields p pa pst pm)
            ∈ s.purchases.map (fun q => if q.id == pid
              then preSave now (applyPaymentFields p pa pst pm) else q) := by
          have hpmem := List.mem_of_find?_eq_some hfind
          have hpq : (p.id == pid) = true := by
            have hpred := List.find?_some hfind
            simp at hpred
            simp [hpred.1]
          have := List.mem_map_of_mem
            (fun q => if q.id == pid then preSave now (applyPaymentFields p pa pst pm) else q)
            hpmem
          simpa [hpq] using this
        exact customerPurchases_ne_nil_of_mem _ _ _ hmem rfl
  · intro s1 p c1 h hfindp hfindc hne
    unfold deletePurchase at h
    split at h
    · exact absurd h (by simp)
    next p0 hfind0 =>
      have hp0 : p0 = p := by
        rw [hfindp] at hfind0
        exact (Option.some.injEq _ _ ▸ hfind0).symm
      subst hp0
      dsimp only at h
      rw [Except.ok.injEq] at h
      subst h
      unfold reconcile at hfindc
      rw [find?_map_update _ _ _ (updatePurchaseStats_id _)] at hfindc
      cases hc2 : s.customers.find? (fun d => d.id == p0.customer) with
      | none => rw [hc2] at hfindc; simp at hfindc
      | some c2 =>
        rw [hc2] at hfindc
        simp only [Option.map_some', Option.some.injEq] at hfindc
        subst hfindc
        apply statsMatchFold_update
        rwa [updatePurchaseStats_id] at hne

/-- Witness for C1: creating a purchase for a fresh customer leaves the
stored aggregates equal to the fold. -/
theorem aggregates_after_mutations_witness :
    statsMatchFold (createStore.purchases ++ [preSave 0 { newPurchase with createdBy := 7 }])
      custReconciled :=
  (aggregates_after_mutations 7 1 0 createStore).1 newPurchase createOutStore custReconciled
    rfl rfl

/-- Counterexample to C1 as stated: deleting a customer's only purchase
keeps the stale aggregates (totalPurchases 1 against an empty set), and an
update raising totalAmount to 200 leaves totalSpent at 100. -/
theorem aggregates_cex :
    (deletePurchase 7 1 storeOne).toOption = some storeOneAfterDelete ∧
    storeOneAfterDelete.customers.find? (fun d => d.id == 2) = some custStats1 ∧
    ¬ statsMatchFold storeOneAfterDelete.purchases custStats1 ∧
    (updatePurchase 7 1 bumpTotal storeOne).toOption.map (fun r => r.1) = some storeOneAfterBump ∧
    storeOneAfterBump.customers = [custStats1] ∧
    ¬ statsMatchFold storeOneAfterBump.purchases custStats1 := by
  refine ⟨rfl, rfl, ?_, rfl, rfl, ?_⟩
  · simp [statsMatchFold, customerPurchases, storeOneAfterDelete, custStats1]
  · norm_num [statsMatchFold, customerPurchases, sumTotalAmount, storeOneAfterBump,
      custStats1, paidPurchase, List.filter]

end ShopMgmt
